import Mathlib

/-!
Verification of the `ip2api` client library (a Python HTTP-scraping client
for the IP2 proteomics web application) against its natural-language
specification.  The Python source is shallowly embedded: plain records and
association lists model Python objects and `__dict__`s, `Except` models
raised exceptions, and explicit state passing models attribute mutation.
Network responses (HTTP status codes, page texts, freshly scraped listings)
are parameters of the embedded operations.
-/

/-- Python runtime values occurring in the fields of an `IP2Database` object.
Equality of two `PyVal`s models the Python `==` used inside `equal_dicts`:
`None`, `int` and `str` compare structurally; `obj` models an object of a
class with no custom `__eq__` (such as the `IP2` client), which Python
compares by identity, modelled here by a numeric object identity. -/
inductive PyVal where
  | pyNone
  | int (n : Int)
  | str (s : String)
  | obj (objId : Nat)
deriving DecidableEq, BEq, Repr

/-- Exceptions raised by the embedded Python code. -/
inductive PyError where
  | lookupError
  | keyError
  | valueError
  | typeError
  | attributeError
  | stopIteration
  | indexError
  | ip2SearchNotRun
deriving DecidableEq, Repr

/-- Iterating over a Python string yields its characters as 1-character
strings; `set(d).difference('ip2')` treats the string `'ip2'` as such an
iterable of characters. -/
def pyStrElems (s : String) : List String :=
  s.data.map (fun c => String.mk [c])

/-- Python `set(a).difference(it)`: the keys of `a` with every element of the
iterable `it` removed (dict keys are already duplicate-free). -/
def pySetDiff (keys : List String) (ignore : List String) : List String :=
  keys.filter (fun k => !(ignore.contains k))

/-- Python `==` between two sets of strings. -/
def setEqStr (xs ys : List String) : Bool :=
  xs.all (fun x => ys.contains x) && ys.all (fun y => xs.contains y)

/-- Python dict indexing `d[k]`, used only at keys known to be present. -/
def dictGet (d : List (String × PyVal)) (k : String) : PyVal :=
  match d.lookup k with
  | some v => v
  | none => PyVal.pyNone

/-- Embedding of `utils.equal_dicts(a, b, ignore_keys)`:
`ka = set(a).difference(ignore_keys); kb = set(b).difference(ignore_keys);
return ka == kb and all(a[k] == b[k] for k in ka)`.
The `ignore_keys` argument is the list of elements obtained by iterating the
Python value passed at the call site. -/
def equal_dicts (a b : List (String × PyVal)) (ignore_keys : List String) : Bool :=
  let ka := pySetDiff (a.map Prod.fst) ignore_keys
  let kb := pySetDiff (b.map Prod.fst) ignore_keys
  setEqStr ka kb && ka.all (fun k => dictGet a k == dictGet b k)

/-- State of an `IP2Database` object: exactly the instance attributes set by
`IP2Database.__init__` (its `__dict__`).  The `ip2` field is the object
identity of the owning `IP2` client; `username` is always a string after
`__init__` (it is defaulted to the client username when `None` is passed). -/
structure IP2Database where
  ip2 : Nat
  _id : Option Int
  filepath : Option String
  source : Option String
  description : Option String
  organism : Option String
  username : String
  user_id : Option Int
deriving DecidableEq, Repr

/-- Conversion of an optional Python int attribute to a `PyVal`. -/
def optIntVal : Option Int → PyVal
  | none => PyVal.pyNone
  | some n => PyVal.int n

/-- Conversion of an optional Python string attribute to a `PyVal`. -/
def optStrVal : Option String → PyVal
  | none => PyVal.pyNone
  | some s => PyVal.str s

/-- The `__dict__` of an `IP2Database` instance, in attribute-creation
order from `__init__`. -/
def dbDict (d : IP2Database) : List (String × PyVal) :=
  [("ip2", PyVal.obj d.ip2),
   ("_id", optIntVal d._id),
   ("filepath", optStrVal d.filepath),
   ("source", optStrVal d.source),
   ("description", optStrVal d.description),
   ("organism", optStrVal d.organism),
   ("username", PyVal.str d.username),
   ("user_id", optIntVal d.user_id)]

/-- Embedding of `IP2Database.__eq__` for two operands of the same class:
`return equal_dicts(self.__dict__, other.__dict__, 'ip2')`.  The third
argument is the string `'ip2'`, which `set.difference` iterates as the
three characters `i`, `p`, `2` — not as the single key `'ip2'`. -/
def dbEq (a b : IP2Database) : Bool :=
  equal_dicts (dbDict a) (dbDict b) (pyStrElems "ip2")

/-- Whether the pattern list is an initial segment of the text list. -/
def startsWithChars : List Char → List Char → Bool
  | [], _ => true
  | _ :: _, [] => false
  | p :: ps, c :: cs => p == c && startsWithChars ps cs

/-- Python `text.find(sub)` restricted to its result sign: the index of the
first occurrence of `sub` in `text`, or `none` when `find` returns `-1`. -/
def findSub (text sub : List Char) : Option Nat :=
  if startsWithChars sub text then some 0
  else
    match text with
    | [] => none
    | _ :: rest => (findSub rest sub).map (fun i => i + 1)

/-- Numeric value of a digit run, as computed by Python `int()`. -/
def digitsToNat (ds : List Char) : Nat :=
  ds.foldl (fun acc c => acc * 10 + (c.toNat - '0'.toNat)) 0

/-- Match of the regex `viewExperiment\.html\?pid=(\d+)` at the head of the
text: the literal followed by a maximal nonempty digit run (the digit class
cannot match the character after the run, so the greedy run is exact). -/
def matchPidAt (cs : List Char) : Option (List Char) :=
  let lit := "viewExperiment.html?pid=".data
  if startsWithChars lit cs then
    let rest := cs.drop lit.length
    let ds := rest.takeWhile Char.isDigit
    if ds.isEmpty then none else some ds
  else none

/-- Embedding of `re.search('viewExperiment\\.html\\?pid=(\\d+)', text)`:
the captured digit group of the leftmost match, if any. -/
def searchPid : List Char → Option (List Char)
  | [] => none
  | c :: cs =>
    match matchPidAt (c :: cs) with
    | some ds => some ds
    | none => searchPid cs

/-- Result of `IP2Project._get_id`: a Python int on a match, or the literal
`False` returned when `text.find(self.name)` is `-1`. -/
inductive ProjIdValue where
  | int (n : Nat)
  | falseVal
deriving DecidableEq, Repr

/-- Embedding of `IP2Project._get_id`: fetch the project-list page text,
find the first occurrence of the project name, and if present regex-extract
the first `pid` after it (`None.group(1)` raises `AttributeError` when the
regex does not match); when the name is absent, return `False`. -/
def projGetId (pageText name : String) : Except PyError ProjIdValue :=
  match findSub pageText.data name.data with
  | none => Except.ok ProjIdValue.falseVal
  | some i =>
    match searchPid (pageText.data.drop i) with
    | some ds => Except.ok (ProjIdValue.int (digitsToNat ds))
    | none => Except.error PyError.attributeError

/-- Embedding of the `IP2Project.id` property:
`if self._id is None: self._id = self._get_id(); return self._id`.
The input is the current `_id` attribute; the output pairs the new `_id`
attribute with the returned value. -/
def projectIdGet (st : Option ProjIdValue) (pageText name : String) :
    Except PyError (Option ProjIdValue × ProjIdValue) :=
  match st with
  | some v => Except.ok (some v, v)
  | none => (projGetId pageText name).map (fun v => (some v, v))

/-- Python `datetime.date` triple. -/
structure PyDate where
  year : Nat
  month : Nat
  day : Nat
deriving DecidableEq, Repr

/-- Values sent in an HTML form. -/
inductive FormVal where
  | str (s : String)
  | nat (n : Nat)
deriving DecidableEq, Repr

/-- Embedding of `IP2Experiment.create`'s POST form.  In the source the
signature is `create(self, instrument_id=65, ..., date=datetime.date.today())`
and Python evaluates the default expression `datetime.date.today()` once, when
the `def` statement runs at module import; `defToday` is that definition-time
date.  A call that omits `date` therefore uses `defToday`, whatever the date
of the call is — the call date is not an input of the computation at all. -/
def experimentCreateForm (defToday : PyDate) (dateArg : Option PyDate)
    (pid : Nat) (projectName sampleName sampleDescription : String)
    (instrumentId : Nat) (experimentDescription : String) :
    List (String × FormVal) :=
  let date := dateArg.getD defToday
  [("pid", FormVal.nat pid),
   ("projectName", FormVal.str projectName),
   ("sampleName", FormVal.str sampleName),
   ("sampleDescription", FormVal.str sampleDescription),
   ("instrumentId", FormVal.nat instrumentId),
   ("month", FormVal.nat date.month),
   ("date", FormVal.nat date.day),
   ("year", FormVal.nat date.year),
   ("description", FormVal.str experimentDescription)]

/-- The date triple `(month, date, year)` carried by a create form. -/
def formDate (form : List (String × FormVal)) :
    Option FormVal × Option FormVal × Option FormVal :=
  (form.lookup "month", form.lookup "date", form.lookup "year")

/-- A project as scraped by `IP2._get_projects` (name and numeric `pid`). -/
structure ProjectRec where
  name : String
  pid : Nat
deriving DecidableEq, Repr

/-- An experiment as scraped by `IP2Project._get_experiments`. -/
structure ExperimentRec where
  name : String
  expId : Nat
deriving DecidableEq, Repr

/-- An organism as scraped by `IP2._get_organisms` (name only). -/
structure OrganismRec where
  name : String
deriving DecidableEq, Repr

/-- An instrument as scraped by `IP2._get_instruments` (option value and
display name). -/
structure InstrumentRec where
  iid : String
  name : String
deriving DecidableEq, Repr

/-- Result of a name-based lookup: either a found entity, or the Python
empty list `[]` returned as a falsy sentinel when nothing matched. -/
inductive LookupResult (α : Type) where
  | found (x : α)
  | emptyList
deriving DecidableEq, Repr

/-- Embedding of `IP2.get_project`: filter the cached project list for an
exact name match; warn (first component `true`) when more than one matches;
return the last match (`projects[-1]`) or the empty list. -/
def get_project (projects : List ProjectRec) (name : String) :
    Bool × LookupResult ProjectRec :=
  let ps := projects.filter (fun p => p.name == name)
  (decide (ps.length > 1),
   match ps.getLast? with
   | some p => LookupResult.found p
   | none => LookupResult.emptyList)

/-- Embedding of `IP2Project.get_experiment`: same shape as `get_project`
over the project's cached experiment list. -/
def get_experiment (experiments : List ExperimentRec) (name : String) :
    Bool × LookupResult ExperimentRec :=
  let es := experiments.filter (fun e => e.name == name)
  (decide (es.length > 1),
   match es.getLast? with
   | some e => LookupResult.found e
   | none => LookupResult.emptyList)

/-- Value stored in and returned from the `IP2Database.id` property: either
a Python int, or the bound-method object `self._get_id` itself.  The source
line is `self._id = self._get_id` — without call parentheses — so Python
stores the bound method, not the result of calling it. -/
inductive DbIdValue where
  | int (n : Int)
  | boundMethod
deriving DecidableEq, Repr

/-- Whether a `DbIdValue` is a Python int. -/
def DbIdValue.isInt : DbIdValue → Bool
  | DbIdValue.int _ => true
  | DbIdValue.boundMethod => false

/-- Embedding of the `IP2Database.id` property:
`if self._id is None: self._id = self._get_id; return self._id`.
The input is the current `_id` attribute, the output pairs the new `_id`
attribute with the returned value.  When `_id` is `None` the missing call
parentheses make it cache and return the bound method object. -/
def databaseIdGet (st : Option DbIdValue) : Option DbIdValue × DbIdValue :=
  match st with
  | some v => (some v, v)
  | none => (some DbIdValue.boundMethod, DbIdValue.boundMethod)

/-- Embedding of `IP2Database._get_id`:
`next(d for d in self.ip2.databases if d.username == self.username and
d.filepath == self.filepath)` followed by `db.id`.  `next` on an exhausted
generator raises `StopIteration`; `db.id` is the `id` property of the found
record (whose `_id` was set to an int when the listing was scraped). -/
def db_get_id (dbs : List IP2Database) (username : String)
    (filepath : Option String) : Except PyError DbIdValue :=
  match dbs.find? (fun d => d.username == username && d.filepath == filepath) with
  | some d => Except.ok (databaseIdGet (d._id.map DbIdValue.int)).2
  | none => Except.error PyError.stopIteration

/-- Python `str.strip()`: remove leading and trailing whitespace. -/
def pyStrip (s : String) : String :=
  String.mk (((s.data.dropWhile Char.isWhitespace).reverse.dropWhile
    Char.isWhitespace).reverse)

/-- Python `str.isdigit()` on ASCII text: nonempty and all digits. -/
def pyIsdigit (s : String) : Bool :=
  !s.isEmpty && s.data.all Char.isDigit

/-- Embedding of `IP2Experiment._get_search_id`: take the scraped search
cell text, strip it, and return it when it is a digit string, otherwise
raise `IP2SearchNotRun`. -/
def expGetSearchId (cellText : String) : Except PyError String :=
  let search_id := pyStrip cellText
  if pyIsdigit search_id then Except.ok search_id
  else Except.error PyError.ip2SearchNotRun

/-- Embedding of the `IP2Experiment.search_id` property:
`if self._search_id is None: self._search_id = self._get_search_id();
return self._search_id`.  A raise inside `_get_search_id` propagates and
nothing is cached. -/
def searchIdGet (st : Option String) (cellText : String) :
    Except PyError (Option String × String) :=
  match st with
  | some v => Except.ok (some v, v)
  | none => (expGetSearchId cellText).map (fun v => (some v, v))

/-- State of an `IP2` client object: the authentication flag, the cookie
jar, the memoized DWR session token and the four memoized collections
(`None` models an unfetched collection). -/
structure IP2Client where
  logged_in : Bool
  cookies : Option (List (String × String))
  dwrSessionId : Option String
  projects : Option (List ProjectRec)
  databases : Option (List IP2Database)
  organisms : Option (List OrganismRec)
  instruments : Option (List InstrumentRec)
deriving DecidableEq, Repr

/-- An HTTP request issued by the client, recorded as an effect. -/
inductive HttpEffect where
  | get (endpoint : String)
  | post (endpoint : String)
deriving DecidableEq, Repr

/-- Server response to the login POST: the cookie jar of the first redirect
in the history (`None` when the history is empty, in which case
`login_req.history[0]` raises `IndexError`) and the final URL. -/
structure LoginResponse where
  historyCookies : Option (List (String × String))
  url : String
deriving DecidableEq, Repr

/-- Embedding of `IP2.logout`: issue the logout GET, treat HTTP 200 as
success, set `logged_in` to the negation of success, return success. -/
def ip2Logout (st : IP2Client) (logoutStatus : Nat) :
    IP2Client × List HttpEffect × Bool :=
  let status := logoutStatus == 200
  ({ st with logged_in := !status }, [HttpEffect.get "ip2/logout.jsp"], status)

/-- Embedding of `IP2.login(password, force)`:
`if force: self.logout()`; then when not logged in or forced, POST the
credentials, store `login_req.history[0].cookies`, and set `logged_in` from
the absence of the substring `'error'` in the final URL; finally return
`self.logged_in`.  The result carries the new client state, the list of
HTTP requests issued, and the returned boolean. -/
def ip2Login (st : IP2Client) (force : Bool) (logoutStatus : Nat)
    (resp : LoginResponse) : Except PyError (IP2Client × List HttpEffect × Bool) :=
  let forced :=
    if force then
      let r := ip2Logout st logoutStatus
      (r.1, r.2.1)
    else (st, [])
  let st1 := forced.1
  let eff1 := forced.2
  if !st1.logged_in || force then
    match resp.historyCookies with
    | none => Except.error PyError.indexError
    | some ck =>
      let st2 := { st1 with
        cookies := some ck,
        logged_in := !((findSub resp.url.data "error".data).isSome) }
      Except.ok (st2, eff1 ++ [HttpEffect.post "ip2/j_security_check"], st2.logged_in)
  else
    Except.ok (st1, eff1, st1.logged_in)

/-- Embedding of `IP2Project.create`: POST the add-project form; success is
HTTP 200; on success assign `self.ip2.projects = self.ip2._get_projects()`,
a wholesale replacement by a fresh scrape (passed as `freshProjects`). -/
def projectCreate (st : IP2Client) (postStatus : Nat)
    (freshProjects : List ProjectRec) : Bool × IP2Client :=
  if postStatus == 200 then (true, { st with projects := some freshProjects })
  else (false, st)

/-- Embedding of `IP2Project.delete`: POST the deletion form; success is
HTTP 200; on success replace the client project collection with a fresh
scrape. -/
def projectDelete (st : IP2Client) (postStatus : Nat)
    (freshProjects : List ProjectRec) : Bool × IP2Client :=
  if postStatus == 200 then (true, { st with projects := some freshProjects })
  else (false, st)

/-- The collection-relevant state of an `IP2Project` object: its memoized
experiment list (`None` when unfetched). -/
structure ProjectState where
  experiments : Option (List ExperimentRec)
deriving DecidableEq, Repr

/-- Embedding of `IP2Experiment.create`'s effect on the parent project:
POST the add-experiment form; success is HTTP 200; on success assign
`self.project.experiments = self.project._get_experiments()`, a wholesale
replacement by a fresh scrape (passed as `freshExps`). -/
def experimentCreate (pst : ProjectState) (postStatus : Nat)
    (freshExps : List ExperimentRec) : Bool × ProjectState :=
  if postStatus == 200 then (true, { pst with experiments := some freshExps })
  else (false, pst)

/-- Embedding of `IP2Experiment.delete`'s effect on the parent project:
same refresh-on-success shape as `experimentCreate`. -/
def experimentDelete (pst : ProjectState) (postStatus : Nat)
    (freshExps : List ExperimentRec) : Bool × ProjectState :=
  if postStatus == 200 then (true, { pst with experiments := some freshExps })
  else (false, pst)

/-- The lazy `IP2.organisms` property: return the cached list, or fetch
(`fetched` is the scraped listing) and cache it. -/
def clientOrganisms (st : IP2Client) (fetched : List OrganismRec) :
    List OrganismRec × IP2Client :=
  match st.organisms with
  | some os => (os, st)
  | none => (fetched, { st with organisms := some fetched })

/-- The lazy `IP2.instruments` property: return the cached list, or fetch
and cache it. -/
def clientInstruments (st : IP2Client) (fetched : List InstrumentRec) :
    List InstrumentRec × IP2Client :=
  match st.instruments with
  | some ins => (ins, st)
  | none => (fetched, { st with instruments := some fetched })

/-- Embedding of `IP2Organism.create`: when the name is already in the
cached organism collection, do nothing; otherwise POST the add-organism
form and, on HTTP 200, execute
`self.ip2.organisms = self.ip2.organisms + self`.  The right-hand side
concatenates a Python list with an `IP2Organism` object — not a list — so
`list.__add__` returns `NotImplemented` and Python raises `TypeError`:
the collection is never re-fetched, the code attempts an incremental
patch and crashes. -/
def organismCreate (st : IP2Client) (name : String)
    (fetched : List OrganismRec) (postStatus : Nat) :
    Except PyError IP2Client :=
  let r := clientOrganisms st fetched
  let os := r.1
  let st1 := r.2
  if (os.map OrganismRec.name).contains name then Except.ok st1
  else if postStatus == 200 then Except.error PyError.typeError
  else Except.ok st1

/-- Embedding of `IP2Instrument.create`: when the name is already in the
cached instrument collection, do nothing; otherwise building the POST
parameters evaluates `self.project`, but `IP2Instrument.__init__` only ever
sets `self._project` and the class defines no `project` attribute or
property, so Python raises `AttributeError` before any request is made or
any collection is touched. -/
def instrumentCreate (st : IP2Client) (name : String)
    (fetched : List InstrumentRec) : Except PyError IP2Client :=
  let r := clientInstruments st fetched
  let ins := r.1
  let st1 := r.2
  if (ins.map InstrumentRec.name).contains name then Except.ok st1
  else Except.error PyError.attributeError

/-- Embedding of `IP2Database.upload`: its first statement
`self.upload_file(path)` evaluates `self.path` inside `upload_file`
(`upload_path=self.path`), but `IP2Database` defines a `filepath`
attribute and no `path` attribute or property, so Python raises
`AttributeError` at once — before any HTTP request, before the metadata
POST, and before the `self.ip2.databases = self.ip2._get_databases()`
refresh on the success path is ever reached. -/
def databaseUpload (_st : IP2Client) : Except PyError IP2Client :=
  Except.error PyError.attributeError

/-- Python regex `\w` on ASCII text: letters, digits and underscore. -/
def isWordChar (c : Char) : Bool :=
  c.isAlphanum || c == '_'

/-- The character class `[\w"\._\-\s]` of the job-status value regex. -/
def isValChar (c : Char) : Bool :=
  isWordChar c || c == '"' || c == '.' || c == '-' || c.isWhitespace

/-- Match of the regex `s(\d+)\.sampleName="NAME"` at the head of the text
(the dataset name is spliced into the pattern verbatim and is treated here
as a literal): the captured digit group.  The digit class cannot match the
following `.`, so the greedy digit run is exact. -/
def matchSampleAt (name : List Char) (cs : List Char) : Option (List Char) :=
  match cs with
  | 's' :: rest =>
    let ds := rest.takeWhile Char.isDigit
    if ds.isEmpty then none
    else if startsWithChars (".sampleName=".data ++ ('"' :: name ++ ['"']))
        (rest.drop ds.length) then some ds
    else none
  | _ => none

/-- Embedding of `re.search('s(\\d+)\\.sampleName="NAME"', text)`: the
captured digit group of the leftmost match, or `none`. -/
def searchSample (name : List Char) : List Char → Option (List Char)
  | [] => none
  | c :: cs =>
    match matchSampleAt name (c :: cs) with
    | some ds => some ds
    | none => searchSample name cs

/-- Match of the regex `sID\.(\w+)=([\w"\._\-\s]+);` at the head of the
text, for a fixed id digit string `idc`: the key and value groups plus the
total number of characters consumed.  Both greedy character-class runs are
exact because the character terminating each run (`=`, `;`) lies outside
the respective class. -/
def matchStmtAt (idc : List Char) (cs : List Char) :
    Option (List Char × List Char × Nat) :=
  let start := 's' :: (idc ++ ['.'])
  if startsWithChars start cs then
    let rest1 := cs.drop start.length
    let key := rest1.takeWhile isWordChar
    if key.isEmpty then none
    else
      match rest1.drop key.length with
      | '=' :: rest3 =>
        let v := rest3.takeWhile isValChar
        if v.isEmpty then none
        else
          match rest3.drop v.length with
          | ';' :: _ => some (key, v, start.length + key.length + 1 + v.length + 1)
          | _ => none
      | _ => none
  else none

/-- Worker for `findAllStmts`, structurally recursive on a fuel that starts
at the text length: every step hands the recursive call a strictly shorter
text (a successful match consumes at least one character, and dropping
`consumed - 1` from the tail is exactly resuming after the match), so the
fuel never runs out on the initial call. -/
def findAllStmtsGo (idc : List Char) : Nat → List Char → List (List Char × List Char)
  | 0, _ => []
  | _, [] => []
  | fuel + 1, c :: rest =>
    match matchStmtAt idc (c :: rest) with
    | some kv => (kv.1, kv.2.1) :: findAllStmtsGo idc fuel (rest.drop (kv.2.2 - 1))
    | none => findAllStmtsGo idc fuel rest

/-- Embedding of `re.findall('sID\\.(\\w+)=([\\w"\\._\\-\\s]+);', text)`:
all leftmost non-overlapping matches in order, scanning resuming after each
match. -/
def findAllStmts (idc : List Char) (cs : List Char) : List (List Char × List Char) :=
  findAllStmtsGo idc cs.length cs

/-- Python `dict(pairs)`: first occurrence fixes the key position, the last
occurrence of a key fixes its value. -/
def pyDict (ps : List (String × String)) : List (String × String) :=
  ps.foldl (fun acc kv =>
    if acc.any (fun p => p.1 == kv.1) then
      acc.map (fun p => if p.1 == kv.1 then (p.1, kv.2) else p)
    else acc ++ [kv]) []

/-- Python `str.lower()` on ASCII text. -/
def pyLower (s : String) : String :=
  String.mk (s.data.map Char.toLower)

/-- Decidable equality for `Except`, letting witnesses evaluate the
embedded fallible operations. -/
instance {e a : Type} [DecidableEq e] [DecidableEq a] : DecidableEq (Except e a) :=
  fun x y =>
    match x, y with
    | Except.error u, Except.error v =>
      if h : u = v then Decidable.isTrue (by rw [h])
      else Decidable.isFalse (by simp [h])
    | Except.error _, Except.ok _ => Decidable.isFalse (by simp)
    | Except.ok _, Except.error _ => Decidable.isFalse (by simp)
    | Except.ok u, Except.ok v =>
      if h : u = v then Decidable.isTrue (by rw [h])
      else Decidable.isFalse (by simp [h])

/-- Embedding of `distutils.util.strtobool`: lowercase the value; the six
true spellings map to 1, the six false spellings to 0, anything else
raises `ValueError`. -/
def strtobool (s : String) : Except PyError Nat :=
  let v := pyLower s
  if v == "y" || v == "yes" || v == "t" || v == "true" || v == "on" || v == "1" then
    Except.ok 1
  else if v == "n" || v == "no" || v == "f" || v == "false" || v == "off" || v == "0" then
    Except.ok 0
  else Except.error PyError.valueError

/-- Python `float()` restricted to plain decimal literals: optional
surrounding whitespace, optional sign, `digits`, `digits.`, `.digits` or
`digits.digits`; anything else (including exponent, `inf` and `nan` forms,
which no claim needs) raises `ValueError`. -/
def pyFloatDec (s : String) : Except PyError Rat :=
  let t := ((s.data.dropWhile Char.isWhitespace).reverse.dropWhile
    Char.isWhitespace).reverse
  let signed : Int × List Char :=
    match t with
    | '-' :: r => (-1, r)
    | '+' :: r => (1, r)
    | r => (1, r)
  let sign := signed.1
  let t1 := signed.2
  let ip := t1.takeWhile Char.isDigit
  match t1.drop ip.length with
  | [] =>
    if ip.isEmpty then Except.error PyError.valueError
    else Except.ok ((sign * (digitsToNat ip : Int) : Int) : Rat)
  | '.' :: fr =>
    let fp := fr.takeWhile Char.isDigit
    match fr.drop fp.length with
    | [] =>
      if ip.isEmpty && fp.isEmpty then Except.error PyError.valueError
      else Except.ok ((sign : Rat) *
        ((digitsToNat ip * 10 ^ fp.length + digitsToNat fp : Nat) : Rat) /
        ((10 ^ fp.length : Nat) : Rat))
    | _ => Except.error PyError.valueError
  | _ => Except.error PyError.valueError

/-- State of an `IP2Job` object: the dataset name given at construction and
the four attributes initialized to `None` and filled in by `update`. -/
structure IP2Job where
  dataset_name : String
  id : Option String
  finished : Option Bool
  progress : Option Rat
  info : Option (List (String × String))
deriving DecidableEq, Repr

/-- A freshly constructed `IP2Job` (everything but the dataset name is
`None`). -/
def jobInit (dataset_name : String) : IP2Job :=
  ⟨dataset_name, none, none, none, none⟩

/-- Python truthiness of the `id` attribute (`None` or a string):
`not self.id` is true exactly when it is `None` or empty. -/
def optStrTruthy : Option String → Bool
  | none => false
  | some s => !s.isEmpty

/-- The dict of key/value pairs extracted for the numeric index `idc` from
the response text, as built by
`info = re.findall('s' + _id + '\\.(\\w+)=([\\w"\\._\\-\\s]+);', text)`
followed by `info = dict(info)`. -/
def jobInfoDict (idc : List Char) (txt : String) : List (String × String) :=
  pyDict ((findAllStmts idc txt.data).map
    (fun kv => (String.mk kv.1, String.mk kv.2)))

/-- Embedding of `IP2Job.update`: poll the job-status DWR endpoint (the
response text is the parameter), locate the numeric index bound to the
dataset name (raising `LookupError` when absent), extract all
`sID.key=value;` pairs into a dict, store it in `info`, record the job id
on the first truthy-less check, then parse `finished` with `strtobool` and
`progress` with `float`.  The result pairs the job state after the call
with the exception raised, if any — Python attribute mutations performed
before a raise persist, so the partially updated state is returned even on
an error. -/
def jobUpdate (job : IP2Job) (responseText : String) : IP2Job × Option PyError :=
  let cs := responseText.data
  match searchSample job.dataset_name.data cs with
  | none => (job, some PyError.lookupError)
  | some idc =>
    let info := jobInfoDict idc responseText
    let j1 := { job with info := some info }
    let step2 : IP2Job × Option PyError :=
      if optStrTruthy j1.id then (j1, none)
      else
        match info.lookup "jobId" with
        | some v => ({ j1 with id := some v }, none)
        | none => (j1, some PyError.keyError)
    match step2 with
    | (j2, some e) => (j2, some e)
    | (j2, none) =>
      match info.lookup "finished" with
      | none => (j2, some PyError.keyError)
      | some fv =>
        match strtobool fv with
        | Except.error e => (j2, some e)
        | Except.ok n =>
          let j3 := { j2 with finished := some (n != 0) }
          match info.lookup "progress" with
          | none => (j3, some PyError.keyError)
          | some pv =>
            match pyFloatDec pv with
            | Except.error e => (j3, some e)
            | Except.ok p => ({ j3 with progress := some p }, none)

/-- C1: the claim says two `IP2Database` records identical in all fields but
constructed with different owning `IP2` client objects compare equal.  The
code passes the string `'ip2'` as `ignore_keys`, and
`set(a).difference('ip2')` removes the characters `i`, `p`, `2` — not the
key `'ip2'` — so the owning-client reference is compared after all, by
object identity.  At the concrete records below, identical in every field
except the client identity, `__eq__` returns `False` (first conjunct),
while withholding the actual key `'ip2'` — the behaviour the code's own
comment documents — would return `True` (second conjunct). -/
theorem c1_dbEq_compares_client_identity :
    dbEq ⟨0, some 5, some "f.fasta", some "src", some "d", some "org", "u", some 3⟩
      ⟨1, some 5, some "f.fasta", some "src", some "d", some "org", "u", some 3⟩ = false
    ∧ equal_dicts
      (dbDict ⟨0, some 5, some "f.fasta", some "src", some "d", some "org", "u", some 3⟩)
      (dbDict ⟨1, some 5, some "f.fasta", some "src", some "d", some "org", "u", some 3⟩)
      ["ip2"] = true := by
  constructor
  · rfl
  · rfl

/-- C2 counterexample: for a project named `projX` whose name does not occur
in the fetched project-list page, accessing the `id` property does not
propagate an error — it returns the Python literal `False`, a falsy
placeholder, and caches it into `_id` (first component `some falseVal`),
contradicting the claim that resolution failure propagates as an error and
that no unresolved value is ever cached. -/
theorem c2_counterexample :
    projectIdGet none "<html>nothing here" "projX" =
      Except.ok (some ProjIdValue.falseVal, ProjIdValue.falseVal) := by
  rfl

/-- C2 amended: when deferred resolution finds no occurrence of the
project's name in the fetched page, the `id` property returns the falsy
placeholder `False` and caches it into `_id`; a later access returns the
cached `False` without refetching. -/
theorem c2_amended_id_caches_false (pageText name : String)
    (h : findSub pageText.data name.data = none) :
    projectIdGet none pageText name =
      Except.ok (some ProjIdValue.falseVal, ProjIdValue.falseVal)
    ∧ projectIdGet (some ProjIdValue.falseVal) pageText name =
      Except.ok (some ProjIdValue.falseVal, ProjIdValue.falseVal) := by
  constructor
  · simp [projectIdGet, projGetId, h, Except.map]
  · rfl

/-- C2 witness: the amended theorem at a concrete page that does not
contain the project name. -/
theorem c2_witness :
    findSub "<html>nothing here".data "projX".data = none
    ∧ (projectIdGet none "<html>nothing here" "projX" =
        Except.ok (some ProjIdValue.falseVal, ProjIdValue.falseVal)
      ∧ projectIdGet (some ProjIdValue.falseVal) "<html>nothing here" "projX" =
        Except.ok (some ProjIdValue.falseVal, ProjIdValue.falseVal)) :=
  ⟨by decide, c2_amended_id_caches_false "<html>nothing here" "projX" (by decide)⟩

/-- C3: the claim says two `create()` calls made on different days without
an explicit date send those different days.  Python evaluates the default
expression `date=datetime.date.today()` once, when the `def` runs at module
import, so every omitted-date call sends the definition-time date: the date
of the call is not an input of the form at all (first conjunct, for every
definition-time date and every call), and in particular two distinct calls
send the same date triple (second conjunct). -/
theorem c3_create_date_fixed_at_definition :
    (∀ (defToday : PyDate) (pid : Nat) (pn sn sd : String) (iid : Nat) (ed : String),
      formDate (experimentCreateForm defToday none pid pn sn sd iid ed) =
        (some (FormVal.nat defToday.month), some (FormVal.nat defToday.day),
         some (FormVal.nat defToday.year)))
    ∧ formDate (experimentCreateForm ⟨2020, 1, 1⟩ none 7 "p" "e1" "" 65 "") =
      formDate (experimentCreateForm ⟨2020, 1, 1⟩ none 7 "p" "e2" "" 65 "") := by
  constructor
  · intro defToday pid pn sn sd iid ed
    rfl
  · rfl

/-- C7: the claim says reading `IP2Database.id` with `_id` unset resolves
and returns the matching database's integer id.  The source line
`self._id = self._get_id` lacks call parentheses, so the property caches
and returns the bound method object itself (first two conjuncts) — never
an int (third conjunct) — even though the helper `_get_id` it should have
called would return the integer id of the listing record matching
username and filepath (last conjunct). -/
theorem c7_database_id_is_bound_method :
    databaseIdGet none = (some DbIdValue.boundMethod, DbIdValue.boundMethod)
    ∧ DbIdValue.isInt (databaseIdGet none).2 = false
    ∧ db_get_id [⟨0, some 42, some "db.fasta", none, none, none, "u", some 7⟩]
        "u" (some "db.fasta") = Except.ok (DbIdValue.int 42) := by
  refine ⟨rfl, rfl, rfl⟩

/-- C8: accessing `search_id` when it was not set by starting a search
raises the domain error `IP2SearchNotRun` whenever the stripped scraped
cell text is not a digit string — no falsy value is ever returned — and
returns the digit string itself otherwise. -/
theorem c8_search_id (cellText : String) :
    (pyIsdigit (pyStrip cellText) = false →
      searchIdGet none cellText = Except.error PyError.ip2SearchNotRun)
    ∧ (pyIsdigit (pyStrip cellText) = true →
      searchIdGet none cellText =
        Except.ok (some (pyStrip cellText), pyStrip cellText)) := by
  constructor
  · intro h
    simp [searchIdGet, expGetSearchId, h, Except.map]
  · intro h
    simp [searchIdGet, expGetSearchId, h, Except.map]

/-- C8 witness: the theorem at a non-digit cell text and at a digit cell
text. -/
theorem c8_witness :
    (pyIsdigit (pyStrip "pending") = false
      ∧ searchIdGet none "pending" = Except.error PyError.ip2SearchNotRun)
    ∧ (pyIsdigit (pyStrip " 123 ") = true
      ∧ searchIdGet none " 123 " =
          Except.ok (some (pyStrip " 123 "), pyStrip " 123 ")) :=
  ⟨⟨by decide, (c8_search_id "pending").1 (by decide)⟩,
   ⟨by decide, (c8_search_id " 123 ").2 (by decide)⟩⟩

/-- C10: calling `login(password, force=False)` on a client whose
`logged_in` flag is `True` skips the logout, skips the credential POST —
issuing no HTTP request — leaves the whole client state (cookies,
`logged_in`, DWR token, all four memoized collections) unchanged, and
returns `True`. -/
theorem c10_login_noop (st : IP2Client) (logoutStatus : Nat)
    (resp : LoginResponse) (h : st.logged_in = true) :
    ip2Login st false logoutStatus resp = Except.ok (st, [], true) := by
  simp [ip2Login, h]

/-- C10 witness: the theorem at a concrete logged-in client. -/
theorem c10_witness :
    (IP2Client.mk true (some [("JSESSIONID", "abc")]) (some "tok")
        (some [⟨"p", 1⟩]) none (some [⟨"Human"⟩]) none).logged_in = true
    ∧ ip2Login
        (IP2Client.mk true (some [("JSESSIONID", "abc")]) (some "tok")
          (some [⟨"p", 1⟩]) none (some [⟨"Human"⟩]) none)
        false 200 ⟨some [("a", "b")], "http://x/ip2/home"⟩ =
      Except.ok
        (IP2Client.mk true (some [("JSESSIONID", "abc")]) (some "tok")
          (some [⟨"p", 1⟩]) none (some [⟨"Human"⟩]) none, [], true) :=
  ⟨rfl, c10_login_noop _ 200 _ rfl⟩

/-- C4 counterexample: a successful organism create (name `Mouse` absent
from the cached collection, add-organism POST answered with HTTP 200) does
not replace the organisms collection with a fresh fetch: the source line
`self.ip2.organisms = self.ip2.organisms + self` attempts to patch the
cached list incrementally by concatenating the organism object onto it,
and since an `IP2Organism` is not a list this raises `TypeError`. -/
theorem c4_counterexample :
    organismCreate ⟨true, none, none, none, none, some [⟨"Human"⟩], none⟩
      "Mouse" [] 200 = Except.error PyError.typeError := by
  rfl

/-- C4 amended: project create/delete and experiment create/delete do
replace the affected collection wholesale with a fresh scrape on a 200
response (first four conjuncts); but database upload raises
`AttributeError` at once (it reads the nonexistent attribute `path`),
instrument create for a new name raises `AttributeError` while building
the POST parameters (it reads the nonexistent attribute `project`), and
organism create for a new name whose POST succeeds raises `TypeError` in
its incremental list patch — the last three never reach any
collection refresh. -/
theorem c4_amended_collection_updates :
    (∀ (st : IP2Client) (fresh : List ProjectRec),
      ((projectCreate st 200 fresh).2).projects = some fresh)
    ∧ (∀ (st : IP2Client) (fresh : List ProjectRec),
      ((projectDelete st 200 fresh).2).projects = some fresh)
    ∧ (∀ (pst : ProjectState) (fresh : List ExperimentRec),
      ((experimentCreate pst 200 fresh).2).experiments = some fresh)
    ∧ (∀ (pst : ProjectState) (fresh : List ExperimentRec),
      ((experimentDelete pst 200 fresh).2).experiments = some fresh)
    ∧ (∀ st : IP2Client, databaseUpload st = Except.error PyError.attributeError)
    ∧ (∀ (st : IP2Client) (name : String) (fetched : List InstrumentRec),
      ((clientInstruments st fetched).1.map InstrumentRec.name).contains name = false →
      instrumentCreate st name fetched = Except.error PyError.attributeError)
    ∧ (∀ (st : IP2Client) (name : String) (fetched : List OrganismRec),
      ((clientOrganisms st fetched).1.map OrganismRec.name).contains name = false →
      organismCreate st name fetched 200 = Except.error PyError.typeError) := by
  refine ⟨fun st fresh => rfl, fun st fresh => rfl, fun pst fresh => rfl,
    fun pst fresh => rfl, fun st => rfl, ?_, ?_⟩
  · intro st name fetched h
    simp only [instrumentCreate, h]
    simp
  · intro st name fetched h
    simp only [organismCreate, h]
    simp

/-- C4 witness: the amended theorem at concrete states, with the
name-absence hypotheses discharged on concrete collections. -/
theorem c4_witness :
    ((projectCreate ⟨false, none, none, none, none, none, none⟩ 200
        [⟨"p", 3⟩]).2).projects = some [⟨"p", 3⟩]
    ∧ ((experimentCreate ⟨some []⟩ 200 [⟨"e", 9⟩]).2).experiments = some [⟨"e", 9⟩]
    ∧ databaseUpload ⟨true, none, none, none, none, none, none⟩ =
        Except.error PyError.attributeError
    ∧ ((clientInstruments ⟨true, none, none, none, none, none,
          some [⟨"1", "LTQ"⟩]⟩ []).1.map InstrumentRec.name).contains
        "Orbitrap" = false
    ∧ instrumentCreate ⟨true, none, none, none, none, none, some [⟨"1", "LTQ"⟩]⟩
        "Orbitrap" [] = Except.error PyError.attributeError
    ∧ ((clientOrganisms ⟨true, none, none, none, none, some [⟨"Human"⟩],
          none⟩ []).1.map OrganismRec.name).contains "Rat" = false
    ∧ organismCreate ⟨true, none, none, none, none, some [⟨"Human"⟩], none⟩
        "Rat" [] 200 = Except.error PyError.typeError :=
  ⟨c4_amended_collection_updates.1 _ _,
   c4_amended_collection_updates.2.2.1 _ _,
   c4_amended_collection_updates.2.2.2.2.1 _,
   by decide,
   c4_amended_collection_updates.2.2.2.2.2.1 _ _ _ (by decide),
   by decide,
   c4_amended_collection_updates.2.2.2.2.2.2 _ _ _ (by decide)⟩

/-- C6: name-based lookup over a cached collection, for both
`IP2.get_project` and `IP2Project.get_experiment`: exactly one exact-name
match returns that entity without warning; two or more matches warn and
return the last match; zero matches return the empty falsy sentinel `[]`
without raising. -/
theorem c6_name_lookup :
    (∀ (projects : List ProjectRec) (name : String) (p : ProjectRec),
      projects.filter (fun q => q.name == name) = [p] →
      get_project projects name = (false, LookupResult.found p))
    ∧ (∀ (projects : List ProjectRec) (name : String) (p : ProjectRec),
      1 < (projects.filter (fun q => q.name == name)).length →
      (projects.filter (fun q => q.name == name)).getLast? = some p →
      get_project projects name = (true, LookupResult.found p))
    ∧ (∀ (projects : List ProjectRec) (name : String),
      projects.filter (fun q => q.name == name) = [] →
      get_project projects name = (false, LookupResult.emptyList))
    ∧ (∀ (experiments : List ExperimentRec) (name : String) (e : ExperimentRec),
      experiments.filter (fun x => x.name == name) = [e] →
      get_experiment experiments name = (false, LookupResult.found e))
    ∧ (∀ (experiments : List ExperimentRec) (name : String) (e : ExperimentRec),
      1 < (experiments.filter (fun x => x.name == name)).length →
      (experiments.filter (fun x => x.name == name)).getLast? = some e →
      get_experiment experiments name = (true, LookupResult.found e))
    ∧ (∀ (experiments : List ExperimentRec) (name : String),
      experiments.filter (fun x => x.name == name) = [] →
      get_experiment experiments name = (false, LookupResult.emptyList)) := by
  refine ⟨?_, ?_, ?_, ?_, ?_, ?_⟩
  · intro projects name p h
    simp [get_project, h]
  · intro projects name p hlen hlast
    simp [get_project, hlast, decide_eq_true hlen]
  · intro projects name h
    simp [get_project, h]
  · intro experiments name e h
    simp [get_experiment, h]
  · intro experiments name e hlen hlast
    simp [get_experiment, hlast, decide_eq_true hlen]
  · intro experiments name h
    simp [get_experiment, h]

/-- C6 witness: the six cases of the theorem at concrete collections. -/
theorem c6_witness :
    ([⟨"a", 1⟩, ⟨"b", 2⟩] : List ProjectRec).filter (fun q => q.name == "a") =
        [⟨"a", 1⟩]
    ∧ get_project [⟨"a", 1⟩, ⟨"b", 2⟩] "a" = (false, LookupResult.found ⟨"a", 1⟩)
    ∧ 1 < (([⟨"a", 1⟩, ⟨"b", 2⟩, ⟨"a", 3⟩] : List ProjectRec).filter
        (fun q => q.name == "a")).length
    ∧ get_project [⟨"a", 1⟩, ⟨"b", 2⟩, ⟨"a", 3⟩] "a" =
        (true, LookupResult.found ⟨"a", 3⟩)
    ∧ get_project [⟨"b", 2⟩] "a" = (false, LookupResult.emptyList)
    ∧ get_experiment [⟨"e", 1⟩] "e" = (false, LookupResult.found ⟨"e", 1⟩)
    ∧ get_experiment [⟨"e", 1⟩, ⟨"e", 2⟩] "e" = (true, LookupResult.found ⟨"e", 2⟩)
    ∧ get_experiment [] "e" = (false, LookupResult.emptyList) :=
  ⟨by decide,
   c6_name_lookup.1 [⟨"a", 1⟩, ⟨"b", 2⟩] "a" ⟨"a", 1⟩ (by decide),
   by decide,
   c6_name_lookup.2.1 [⟨"a", 1⟩, ⟨"b", 2⟩, ⟨"a", 3⟩] "a" ⟨"a", 3⟩ (by decide)
     (by decide),
   c6_name_lookup.2.2.1 [⟨"b", 2⟩] "a" (by decide),
   c6_name_lookup.2.2.2.1 [⟨"e", 1⟩] "e" ⟨"e", 1⟩ (by decide),
   c6_name_lookup.2.2.2.2.1 [⟨"e", 1⟩, ⟨"e", 2⟩] "e" ⟨"e", 2⟩ (by decide)
     (by decide),
   c6_name_lookup.2.2.2.2.2 [] "e" (by decide)⟩

/-- C5 counterexample: a polling response that does contain the dataset
name, a textual `finished=true` entry and a decimal `progress=0.5` entry —
but no `jobId` entry.  The claim says `finished` is then set to the parsed
boolean, but the code evaluates `info['jobId']` first (the job's id being
unset) and raises `KeyError`, leaving `finished` and `progress` unset. -/
theorem c5_counterexample :
    (jobUpdate (jobInit "ds")
      "s0.sampleName=\"ds\";s0.finished=true;s0.progress=0.5;").1.finished = none
    ∧ (jobUpdate (jobInit "ds")
      "s0.sampleName=\"ds\";s0.finished=true;s0.progress=0.5;").2 =
        some PyError.keyError
    ∧ searchSample "ds".data
        "s0.sampleName=\"ds\";s0.finished=true;s0.progress=0.5;".data = some ['0']
    ∧ (jobInfoDict ['0']
        "s0.sampleName=\"ds\";s0.finished=true;s0.progress=0.5;").lookup
        "finished" = some "true" := by
  refine ⟨by decide, by decide, by decide, by decide⟩

/-- C5 amended: `update()` raises a lookup error when the dataset name is
absent from the polling-response text; when the name is present — and
provided the extracted pairs include a `jobId` entry or the job's id is
already truthy, since `info['jobId']` is evaluated first and its absence
raises `KeyError` — `finished` is set to the boolean parsed from the
textual `true`/`false` finished entry and `progress` to the number parsed
from the decimal progress entry, with no exception. -/
theorem c5_job_update_parses_status (job : IP2Job) (txt : String) :
    (searchSample job.dataset_name.data txt.data = none →
      jobUpdate job txt = (job, some PyError.lookupError))
    ∧ (∀ (idc : List Char) (fv pv : String) (p : Rat),
      searchSample job.dataset_name.data txt.data = some idc →
      (optStrTruthy job.id = true ∨
        ((jobInfoDict idc txt).lookup "jobId").isSome = true) →
      (jobInfoDict idc txt).lookup "finished" = some fv →
      (fv = "true" ∨ fv = "false") →
      (jobInfoDict idc txt).lookup "progress" = some pv →
      pyFloatDec pv = Except.ok p →
      (jobUpdate job txt).1.finished = some (fv == "true")
      ∧ (jobUpdate job txt).1.progress = some p
      ∧ (jobUpdate job txt).2 = none) := by
  constructor
  · intro h
    simp [jobUpdate, h]
  · intro idc fv pv p hs hjob hfv hfb hpv hp
    have h1 : strtobool "true" = Except.ok 1 := by decide
    have h0 : strtobool "false" = Except.ok 0 := by decide
    simp only [jobUpdate, hs]
    rcases hjob with htr | hj
    · simp only [htr, reduceIte, hfv]
      rcases hfb with rfl | rfl
      · simp only [h1, hpv, hp]
        simp
      · simp only [h0, hpv, hp]
        simp
    · rw [Option.isSome_iff_exists] at hj
      obtain ⟨jid, hj⟩ := hj
      by_cases htr : optStrTruthy job.id = true
      · simp only [htr, reduceIte, hfv]
        rcases hfb with rfl | rfl <;> simp only [h1, h0, hpv, hp] <;> simp
      · have hf : optStrTruthy job.id = false := by
          exact Bool.eq_false_iff.mpr htr
        simp only [hf, Bool.false_eq_true, reduceIte, hj, hfv]
        rcases hfb with rfl | rfl <;> simp only [h1, h0, hpv, hp] <;> simp

/-- C5 witness: both halves of the amended theorem at concrete responses —
 a response without the dataset name, and a complete response with
`jobId`, `finished=true` and `progress=75` entries. -/
theorem c5_witness :
    (searchSample "missing".data "s0.sampleName=\"ds\";".data = none
      ∧ jobUpdate (jobInit "missing") "s0.sampleName=\"ds\";" =
        (jobInit "missing", some PyError.lookupError))
    ∧ ((jobUpdate (jobInit "ds")
        "s0.sampleName=\"ds\";s0.jobId=7;s0.finished=true;s0.progress=75;").1.finished =
          some ("true" == "true")
      ∧ (jobUpdate (jobInit "ds")
        "s0.sampleName=\"ds\";s0.jobId=7;s0.finished=true;s0.progress=75;").1.progress =
          some 75
      ∧ (jobUpdate (jobInit "ds")
        "s0.sampleName=\"ds\";s0.jobId=7;s0.finished=true;s0.progress=75;").2 = none) :=
  ⟨⟨by decide,
    (c5_job_update_parses_status (jobInit "missing") "s0.sampleName=\"ds\";").1
      (by decide)⟩,
   (c5_job_update_parses_status (jobInit "ds")
      "s0.sampleName=\"ds\";s0.jobId=7;s0.finished=true;s0.progress=75;").2
    ['0'] "true" "75" 75 (by decide) (Or.inr (by decide)) (by decide)
    (Or.inl rfl) (by decide) (by decide)⟩

/-- C9: once a job's `id` attribute holds a non-empty string, no call to
`update()` changes it (the guard `if not self.id` is false), whatever the
polling response contains — including responses reporting a different
`jobId` — and the dataset name is likewise never overwritten. -/
theorem c9_job_id_immutable (job : IP2Job) (txt : String) (s : String)
    (hid : job.id = some s) (hne : s.isEmpty = false) :
    (jobUpdate job txt).1.id = some s
    ∧ (jobUpdate job txt).1.dataset_name = job.dataset_name := by
  have htr : optStrTruthy job.id = true := by
    rw [hid]
    simp [optStrTruthy, hne]
  cases hs : searchSample job.dataset_name.data txt.data with
  | none => simp [jobUpdate, hs, hid]
  | some idc =>
    constructor <;>
      simp only [jobUpdate, hs, htr] <;>
      simp only [if_true, reduceIte] <;>
      (repeat' split) <;>
      simp_all

/-- C9 witness: the theorem on a job whose id is already `"99"`, polled
against a response reporting `jobId=7`: the id stays `"99"`. -/
theorem c9_witness :
    ({ jobInit "ds" with id := some "99" } : IP2Job).id = some "99"
    ∧ ("99" : String).isEmpty = false
    ∧ ((jobUpdate { jobInit "ds" with id := some "99" }
        "s0.sampleName=\"ds\";s0.jobId=7;s0.finished=true;s0.progress=75;").1.id =
          some "99"
      ∧ (jobUpdate { jobInit "ds" with id := some "99" }
        "s0.sampleName=\"ds\";s0.jobId=7;s0.finished=true;s0.progress=75;").1.dataset_name =
          ({ jobInit "ds" with id := some "99" } : IP2Job).dataset_name) :=
  ⟨rfl, rfl,
   c9_job_id_immutable { jobInit "ds" with id := some "99" }
     "s0.sampleName=\"ds\";s0.jobId=7;s0.finished=true;s0.progress=75;" "99" rfl rfl⟩
